import Mathlib

/-!
Verification of the kube2iam fork against its specification.

Shallow embedding of:
  * `src/cmd/store.go` — the Identity Index (IP → role map fed by pod events);
  * `src/unnamed/part_001` and `src/unnamed/part_002` (`package iam`) — the
    Credential Broker (session-name derivation, per-role credential cache,
    remote AssumeRole call);
  * `src/server/server.go` — the Trust-Boundary Proxy (request handlers,
    panic-recovery boundary, route registration).

Go maps are embedded as functions `String → Option _`; Go's `interface{}`
event payloads with type assertions are embedded as a sum type; machine
integers are `Nat` with explicit `% 2^32` where Go's `uint32` overflows.
The remote STS service and the clock are oracles supplied per call.
-/

namespace Kube2iam

/-! ## Identity Index — `src/cmd/store.go` -/

/-- A pod as the store sees it: its status IP and its annotation map
(`pod.Status.PodIP`, `pod.Annotations`). -/
structure Pod where
  podIP : String
  annotations : String → Option String

/-- The untyped `obj interface{}` delivered to the event handlers: either a
`*api.Pod` (the type assertion succeeds) or some other object (it fails). -/
inductive EventObj where
  | pod (p : Pod)
  | other

/-- The `store` struct: default role, annotation key, and the `rolesByIP`
map.  The `sync.RWMutex` serialises access in Go; the embedding is the
sequential state it protects. -/
structure Store where
  defaultRole : String
  iamRoleKey : String
  rolesByIP : String → Option String

/-- `store.Get`: the role for an IP, else the default role. -/
def Store.Get (s : Store) (ip : String) : String :=
  match s.rolesByIP ip with
  | some role => role
  | none => s.defaultRole

/-- `store.OnAdd`: if the object is a pod carrying the role annotation and a
non-empty IP, record `rolesByIP[podIP] = role`. -/
def Store.OnAdd (s : Store) (obj : EventObj) : Store :=
  match obj with
  | .pod pod =>
    match pod.annotations s.iamRoleKey with
    | some role =>
      if pod.podIP ≠ "" then
        { s with rolesByIP := fun ip => if ip = pod.podIP then some role else s.rolesByIP ip }
      else s
    | none => s
  | .other => s

/-- `store.OnDelete`: if the object is a pod with a non-empty IP, delete the
entry at that IP (unconditionally — the stored role is not compared). -/
def Store.OnDelete (s : Store) (obj : EventObj) : Store :=
  match obj with
  | .pod pod =>
    if pod.podIP ≠ "" then
      { s with rolesByIP := fun ip => if ip = pod.podIP then none else s.rolesByIP ip }
    else s
  | .other => s

/-- `store.OnUpdate`: when both objects are pods, act only if the IP changed
(delete old, add new); if exactly one type assertion succeeds, add or delete
that one; otherwise do nothing. -/
def Store.OnUpdate (s : Store) (oldObj newObj : EventObj) : Store :=
  match oldObj, newObj with
  | .pod oldPod, .pod newPod =>
    if oldPod.podIP ≠ newPod.podIP then
      (s.OnDelete (.pod oldPod)).OnAdd (.pod newPod)
    else s
  | .other, .pod newPod => s.OnAdd (.pod newPod)
  | .pod oldPod, .other => s.OnDelete (.pod oldPod)
  | .other, .other => s

/-! ## Credential Broker — `package iam`

`src/unnamed/part_002` is the aws-sdk-go-v1 variant of the package: it owns a
package-level credential cache (`var cache = ccache.New(...)`) consulted by
`AssumeRole` via `cache.Fetch(roleARN, 10*time.Second, fetch)`.
`src/unnamed/part_001` is the aws-sdk-go-v2 variant: no cache, a single
direct call.  `getHash` and `sessionName` are textually identical in both
files and are embedded once. -/

/-- One step of FNV-1a on a 32-bit accumulator: `h ^= b; h *= 16777619`,
with `uint32` overflow made explicit. -/
def fnv32aStep (h b : Nat) : Nat :=
  ((h ^^^ b) * 16777619) % 4294967296

/-- `hash/fnv`'s 32-bit FNV-1a digest of a byte sequence (offset basis
2166136261). -/
def fnv32a (bytes : List Nat) : Nat :=
  bytes.foldl fnv32aStep 2166136261

/-- UTF-8 encoding of one code point, as byte values. -/
def utf8Bytes (c : Nat) : List Nat :=
  if c < 128 then [c]
  else if c < 2048 then [192 + c / 64, 128 + c % 64]
  else if c < 65536 then [224 + c / 4096, 128 + (c / 64) % 64, 128 + c % 64]
  else [240 + c / 262144, 128 + (c / 4096) % 64, 128 + (c / 64) % 64, 128 + c % 64]

/-- The UTF-8 bytes of a string (Go strings are UTF-8 byte sequences; `h.Write([]byte(text))`). -/
def strBytes (s : String) : List Nat :=
  (s.data.map (fun c => utf8Bytes c.toNat)).flatten

/-- Go's `fmt.Sprintf("%x", n)` on an unsigned integer: lowercase hex, no
leading zeros, `"0"` for zero — which is exactly base-16 `Nat.toDigits`. -/
def toHex (n : Nat) : String :=
  String.mk (Nat.toDigits 16 n)

/-- `getHash`: the FNV-32a digest of the text, hex-formatted.  (The Go error
branch returning the raw text is dead: `fnv`'s `Write` never returns an
error.) -/
def getHash (text : String) : String :=
  toHex (fnv32a (strBytes text))

/-- The suffix of `s` after its last `'/'` — Go's
`s[strings.LastIndex(s, "/")+1:]`, which is the whole string when there is
no slash. -/
def afterLastSlash (s : String) : String :=
  String.mk ((s.data.reverse.takeWhile (fun c => c ≠ '/')).reverse)

/-- `sessionName`: `fmt.Sprintf("%s-%s", getHash(remoteIP), roleARN[idx+1:])`
truncated by `fmt.Sprintf("%.[2]*[1]s", name, 64)` to its first 64
characters. -/
def sessionName (roleARN remoteIP : String) : String :=
  String.mk (((getHash remoteIP) ++ "-" ++ afterLastSlash roleARN).data.take 64)

/-- The `Credentials` struct returned to callers. -/
structure Credentials where
  accessKeyID : String
  code : String
  expiration : String
  lastUpdated : String
  secretAccessKey : String
  token : String
  type : String
deriving DecidableEq, Repr

/-- The `sts.AssumeRoleInput` the broker sends: v1 sets `DurationSeconds`
(twice the session TTL, in seconds); v2 leaves it unset.  `ExternalId` is
injected only when a non-empty external ID was provided. -/
structure AssumeRoleInput where
  durationSeconds : Option Nat
  roleArn : String
  roleSessionName : String
  externalId : Option String
deriving DecidableEq, Repr

/-- The fields taken from a successful STS response
(`resp.Credentials.{AccessKeyId, Expiration, SecretAccessKey, SessionToken}`,
the expiration already rendered in the `2006-01-02T15:04:05Z` layout). -/
structure StsResp where
  accessKeyId : String
  expiration : String
  secretAccessKey : String
  sessionToken : String
deriving DecidableEq, Repr

/-- Per-call oracle: the STS service's answer to an input, the current time
in seconds (for cache expiry), and the current time rendered in the
`2006-01-02T15:04:05Z` layout (for `LastUpdated`). -/
structure Env where
  remote : AssumeRoleInput → Except String StsResp
  now : Nat
  nowStr : String

/-- The `Credentials` value built from a successful STS response:
`Code = "Success"`, `Type = "AWS-HMAC"`, `LastUpdated = time.Now()`
formatted. -/
def mkCredentials (resp : StsResp) (nowStr : String) : Credentials :=
  { accessKeyID := resp.accessKeyId
    code := "Success"
    expiration := resp.expiration
    lastUpdated := nowStr
    secretAccessKey := resp.secretAccessKey
    token := resp.sessionToken
    type := "AWS-HMAC" }

/-- An entry of the package-level `ccache` cache: the stored value and its
absolute expiry instant (insertion time + TTL). -/
structure CacheEntry where
  value : Credentials
  expires : Nat
deriving DecidableEq

/-- The package-level state of the v1 `iam` package: the single shared
credential cache (`var cache`, one per process, not per client), the
per-role cache-hit counter (`metrics.IamCacheHitCount`), and the log of
remote STS calls actually issued. -/
structure IamState where
  cache : String → Option CacheEntry
  cacheHits : String → Nat
  remoteCalls : List AssumeRoleInput

/-- The `iam.Client` struct (v1).  `StsService` is the remote oracle,
supplied per call through `Env`. -/
structure Client where
  baseARN : String
  endpoint : String
  useRegionalEndpoint : Bool
  stsVpcEndPoint : String

/-- Result of one `AssumeRole` call: the credentials-or-error, and whether
the `hitCache` flag survived (the cache-hit counter is incremented exactly
when it did). -/
structure AssumeResult where
  creds : Except String Credentials
  hitCache : Bool
deriving Repr

/-- The `AssumeRoleInput` the v1 fetch closure builds:
`DurationSeconds = sessionTTL.Seconds() * 2`, the derived session name, and
`ExternalId` injected only if non-empty. -/
def mkAssumeRoleInputV1 (roleARN externalID remoteIP : String)
    (sessionTTLSecs : Nat) : AssumeRoleInput :=
  { durationSeconds := some (sessionTTLSecs * 2)
    roleArn := roleARN
    roleSessionName := sessionName roleARN remoteIP
    externalId := if externalID ≠ "" then some externalID else none }

/-- Body of the v1 fetch closure after the input is built: issue the remote
call once and either propagate its error or build `Credentials`. -/
def fetchOnce (roleARN externalID remoteIP : String) (sessionTTLSecs : Nat)
    (env : Env) : AssumeRoleInput × Except String Credentials :=
  let input := mkAssumeRoleInputV1 roleARN externalID remoteIP sessionTTLSecs
  match env.remote input with
  | .error e => (input, .error e)
  | .ok resp => (input, .ok (mkCredentials resp env.nowStr))

/-- `ccache`'s liveness test inside `Fetch`: the entry for the key, provided
it has not expired at the current instant. -/
def liveEntry (st : IamState) (roleARN : String) (now : Nat) : Option CacheEntry :=
  match st.cache roleARN with
  | some e => if now ≤ e.expires then some e else none
  | none => none

/-- v1 `Client.AssumeRole` (`src/unnamed/part_002`): `cache.Fetch(roleARN,
10*time.Second, fetch)` — on a live (unexpired) entry return it and count a
cache hit; otherwise run the fetch closure once, cache its result for 10
seconds on success, cache nothing on error.  The client's own fields play no
part: the cache is package-level and keyed by `roleARN` alone. -/
def Client.AssumeRole (_c : Client) (roleARN externalID remoteIP : String)
    (sessionTTLSecs : Nat) (env : Env) (st : IamState) : AssumeResult × IamState :=
  match liveEntry st roleARN env.now with
  | some e =>
    ({ creds := .ok e.value, hitCache := true },
     { st with cacheHits := fun k => if k = roleARN then st.cacheHits k + 1 else st.cacheHits k })
  | none =>
    let (input, r) := fetchOnce roleARN externalID remoteIP sessionTTLSecs env
    let st' := { st with remoteCalls := st.remoteCalls ++ [input] }
    match r with
    | .error e => ({ creds := .error e, hitCache := false }, st')
    | .ok creds =>
      ({ creds := .ok creds, hitCache := false },
       { st' with cache := fun k =>
          if k = roleARN then some { value := creds, expires := env.now + 10 } else st'.cache k })

/-- v2 `Client.AssumeRole` (`src/unnamed/part_001`): no cache; build the
input (no `DurationSeconds`), issue the remote call once (the goroutine is
joined immediately by `wg.Wait()`, so the call is sequential), propagate the
error or build `Credentials`.  Returns the result and the list of remote
calls issued. -/
def mkAssumeRoleInputV2 (roleARN externalID remoteIP : String) : AssumeRoleInput :=
  { durationSeconds := none
    roleArn := roleARN
    roleSessionName := sessionName roleARN remoteIP
    externalId := if externalID ≠ "" then some externalID else none }

def assumeRoleV2 (roleARN externalID remoteIP : String) (env : Env) :
    Except String Credentials × List AssumeRoleInput :=
  let input := mkAssumeRoleInputV2 roleARN externalID remoteIP
  match env.remote input with
  | .error e => (.error e, [input])
  | .ok resp => (.ok (mkCredentials resp env.nowStr), [input])

/-! ## Trust-Boundary Proxy — `src/server/server.go` -/

/-- Split a character list on `'.'`, keeping empty fields. -/
def splitOnDot (cs : List Char) : List (List Char) :=
  cs.foldr
    (fun c acc =>
      if c = '.' then [] :: acc
      else
        match acc with
        | g :: gs => (c :: g) :: gs
        | [] => [[c]])
    [[]]

/-- The decimal value of a non-empty all-digit run, else `none`. -/
def decDigits (cs : List Char) : Option Nat :=
  if cs = [] then none
  else if cs.all Char.isDigit then
    some (cs.foldl (fun n c => n * 10 + (c.toNat - 48)) 0)
  else none

/-- `net.ParseIP` restricted to the strings `parseRemoteAddr` feeds it: the
prefix before the first `':'`, hence never an IPv6 literal.  Go 1.16's IPv4
parser accepts four dot-separated decimal runs each of value ≤ 255 (leading
zeros allowed), nothing else. -/
def isValidIPv4 (s : String) : Bool :=
  let parts := splitOnDot s.data
  parts.length = 4 && parts.all fun p =>
    match decDigits p with
    | some n => n ≤ 255
    | none => false

/-- `parseRemoteAddr`: take the prefix of `addr` before the first `':'`; if
`':'` is absent or at index ≤ 1, or the prefix is not an IP, return `""`. -/
def parseRemoteAddr (addr : String) : String :=
  if addr.data.contains ':' then
    let pre := addr.data.takeWhile (fun c => c ≠ ':')
    if pre.length ≤ 1 then ""
    else if isValidIPv4 (String.mk pre) then String.mk pre
    else ""
  else ""

/-- Modelled from the spec: `iam.Client.RoleARN`, called by `roleHandler`
(`src/server/server.go:328`) but absent from the source under `src/`.  Per
§4.4 it "build[s] the full ARN for `{role}`": a role that is already a full
ARN is kept, otherwise the configured base-ARN prefix is prepended. -/
def RoleARN (c : Client) (role : String) : String :=
  if role.startsWith "arn:aws" then role else c.baseARN ++ role

/-- Shell-style wildcard match of pattern `ps` against `cs` (`*` any run,
`?` any one character), used by the spec-modelled authorization evaluator. -/
def globMatch : List Char → List Char → Bool
  | [], cs => cs.isEmpty
  | '*' :: ps, cs => cs.tails.any fun t => globMatch ps t
  | '?' :: ps, _ :: cs => globMatch ps cs
  | '?' :: _, [] => false
  | p :: ps, c :: cs => p = c && globMatch ps cs
  | _ :: _, [] => false

/-- Modelled from the spec: the namespace-restriction table of §3/§4.2 (the
`mappings.RoleMapper` / namespace store is not under `src/`): global
enforcement flag and, per namespace, the ordered allow-list of role patterns
(glob dialect; the regex dialect does not occur in any instance used here). -/
structure NamespaceRestrictions where
  enabled : Bool
  table : String → Option (List String)

/-- Modelled from the spec: `isAuthorized(namespace, requestedRole)` of
§4.2 — always true when enforcement is globally disabled; a namespace with
no restriction record denies (fail closed); otherwise the requested role is
permitted iff some allowed glob pattern matches its bare name (ARN prefix
after the last `'/'` stripped). -/
def isAuthorized (nr : NamespaceRestrictions) (ns requestedRole : String) : Bool :=
  if !nr.enabled then true
  else
    match nr.table ns with
    | none => false
    | some pats => pats.any fun p => globMatch p.data (afterLastSlash requestedRole).data

/-- The fields of the `Server` struct that the role-credentials handler
reads: its IAM client and the configured role session TTL (in seconds). -/
structure Server where
  iam : Client
  iamRoleSessionTTLSecs : Nat

/-- An inbound HTTP request as the handlers see it: its transport remote
address and the mux path variables. -/
structure Request where
  remoteAddr : String
  vars : String → Option String

/-- The response of `roleHandler`: a 200 with the encoded `Credentials`, or
a 503 carrying the broker error's message (every error path in the handler
writes `http.StatusServiceUnavailable`). -/
inductive RoleResponse where
  | ok (creds : Credentials)
  | svcUnavailable (msg : String)
deriving DecidableEq, Repr

/-- The four arguments `roleHandler` passes to `AssumeRole`: the ARN built
from the `role` path variable, the literal `""` for the external ID, the
parsed remote IP, and the configured session TTL. -/
structure BrokerArgs where
  roleARN : String
  externalID : String
  remoteIP : String
  sessionTTLSecs : Nat

/-- The broker-call arguments computed by `roleHandler`
(`src/server/server.go:326-336`): `remoteIP := parseRemoteAddr(r.RemoteAddr)`,
`wantedRole := mux.Vars(r)["role"]`, `wantedRoleARN := s.iam.RoleARN(wantedRole)`,
and the call `s.iam.AssumeRole(wantedRoleARN, "", remoteIP, s.IAMRoleSessionTTL)`. -/
def Server.roleHandlerBrokerArgs (srv : Server) (req : Request) : BrokerArgs :=
  { roleARN := RoleARN srv.iam ((req.vars "role").getD "")
    externalID := ""
    remoteIP := parseRemoteAddr req.remoteAddr
    sessionTTLSecs := srv.iamRoleSessionTTLSecs }

/-- `Server.roleHandler`: compute the broker arguments, call `AssumeRole`,
and answer 503 with the error's message on failure, else 200 with the
credentials.  No other lookup or check occurs before the broker call. -/
def Server.roleHandler (srv : Server) (req : Request) (env : Env) (st : IamState) :
    RoleResponse × IamState :=
  let a := srv.roleHandlerBrokerArgs req
  let (res, st') := srv.iam.AssumeRole a.roleARN a.externalID a.remoteIP a.sessionTTLSecs env st
  match res.creds with
  | .error e => (.svcUnavailable e, st')
  | .ok creds => (.ok creds, st')

/-! ### Per-request panic boundary and route registration -/

/-- A value recovered from `panic` in `appHandler.ServeHTTP`'s deferred
function: a string, an error, or anything else. -/
inductive PanicValue where
  | str (s : String)
  | err (msg : String)
  | other
deriving DecidableEq, Repr

/-- The message the recovery boundary derives from a recovered value
(`switch t := rec.(type)`): the string itself, the error's message, or
`"unknown error"`. -/
def recoverMessage : PanicValue → String
  | .str s => s
  | .err m => m
  | .other => "unknown error"

/-- The outcome of running a handler function on a request: a normal
response (status and body) or a panic. -/
inductive HandlerOutcome where
  | normal (status : Nat) (body : String)
  | panics (v : PanicValue)

/-- A written HTTP response: status and body. -/
structure HttpResult where
  status : Nat
  body : String
deriving DecidableEq, Repr

/-- How a route is registered in `Run` (`src/server/server.go:414-444`):
through `newAppHandler` (wrapped by `appHandler.ServeHTTP` and its recovery
boundary) or directly as a raw handler function (`pprof` routes; the
role-credentials route via `newrelic.WrapHandleFunc`). -/
inductive Registration where
  | app (name : String)
  | raw
deriving DecidableEq, Repr

/-- The mux registrations made by `Run` in web-server mode, in registration
order, with how each is registered. -/
def registeredRoutes (debug : Bool) : List (String × Registration) :=
  [("/debug/pprof/trace", .raw), ("/debug/pprof/", .raw)] ++
  (if debug then [("/debug/store", .app "debugStoreHandler")] else []) ++
  [("/{version}/meta-data/iam/security-credentials", .app "securityCredentialsHandler"),
   ("/{version}/meta-data/iam/security-credentials/", .app "securityCredentialsHandler"),
   ("/{version}/meta-data/iam/security-credentials/{role:.*}", .raw),
   ("/healthz", .app "healthHandler"),
   ("/{path:.*}", .app "reverseProxyHandler")]

/-- `appHandler.ServeHTTP`: run the handler; a normal outcome is the
response as written; a panic is recovered by the deferred function and
written as a 500 whose body is the recovered message. -/
def serveWrapped (h : Request → HandlerOutcome) (req : Request) :
    Except PanicValue HttpResult :=
  match h req with
  | .normal status body => .ok { status := status, body := body }
  | .panics v => .ok { status := 500, body := recoverMessage v }

/-- A raw registration: the handler runs with no recovery boundary from this
program, so a panic propagates out of the handler uncaught by it. -/
def serveRaw (h : Request → HandlerOutcome) (req : Request) :
    Except PanicValue HttpResult :=
  match h req with
  | .normal status body => .ok { status := status, body := body }
  | .panics v => .error v

/-- Dispatch according to how the route was registered. -/
def serveRegistration : Registration → (Request → HandlerOutcome) → Request →
    Except PanicValue HttpResult
  | .app _, h, req => serveWrapped h req
  | .raw, h, req => serveRaw h req

/-! ## Concrete fixtures for counterexamples and witnesses -/

/-- An empty Identity Index with default role `"fallback-role"` and the
default annotation key. -/
def store0 : Store :=
  { defaultRole := "fallback-role"
    iamRoleKey := "iam.amazonaws.com/role"
    rolesByIP := fun _ => none }

/-- A pod at `10.0.0.1` annotated with role `role-one`. -/
def podOldR1 : Pod :=
  { podIP := "10.0.0.1"
    annotations := fun k => if k = "iam.amazonaws.com/role" then some "role-one" else none }

/-- The same pod IP, annotated with role `role-two`. -/
def podNewR2 : Pod :=
  { podIP := "10.0.0.1"
    annotations := fun k => if k = "iam.amazonaws.com/role" then some "role-two" else none }

/-- An IAM client configured with a base ARN. -/
def clientC : Client :=
  { baseARN := "arn:aws:iam::111:role/"
    endpoint := "sts.amazonaws.com"
    useRegionalEndpoint := false
    stsVpcEndPoint := "" }

/-- A second, differently configured IAM client (different base ARN and
endpoint). -/
def clientD : Client :=
  { baseARN := "arn:aws:iam::222:role/"
    endpoint := "https://sts.us-east-1.amazonaws.com"
    useRegionalEndpoint := true
    stsVpcEndPoint := "vpce" }

/-- A server holding `clientC` with a 900-second role session TTL. -/
def srvC : Server := { iam := clientC, iamRoleSessionTTLSecs := 900 }

/-- A request from `10.0.0.5:4343` whose `role` path variable is
`other-role`. -/
def reqOther : Request :=
  { remoteAddr := "10.0.0.5:4343"
    vars := fun k => if k = "role" then some "other-role" else none }

/-- A successful STS response. -/
def stsRespC : StsResp :=
  { accessKeyId := "AKIAEXAMPLE"
    expiration := "2026-01-01T00:10:00Z"
    secretAccessKey := "SECRETKEY"
    sessionToken := "SESSIONTOKEN" }

/-- An environment whose remote STS call always succeeds with `stsRespC`. -/
def envOkC : Env :=
  { remote := fun _ => .ok stsRespC, now := 1000, nowStr := "2026-01-01T00:00:00Z" }

/-- An environment whose remote STS call always fails with a throttling
(transient) error. -/
def envThrottleC : Env :=
  { remote := fun _ => .error "Throttling: Rate exceeded", now := 1000, nowStr := "2026-01-01T00:00:00Z" }

/-- The empty broker state: empty cache, zero counters, no remote calls. -/
def iamState0 : IamState :=
  { cache := fun _ => none, cacheHits := fun _ => 0, remoteCalls := [] }

/-- A restriction table with enforcement on, where namespace `payments`
allows only roles matching `payments-*`. -/
def nrPayments : NamespaceRestrictions :=
  { enabled := true
    table := fun ns => if ns = "payments" then some ["payments-*"] else none }

/-- The credentials built from `stsRespC`. -/
def credsC : Credentials := mkCredentials stsRespC "2026-01-01T00:00:00Z"

/-- A request with no path variables, used with panicking handlers. -/
def reqPlain : Request := { remoteAddr := "10.0.0.5:4343", vars := fun _ => none }

/-- A broker state whose shared cache holds `credsC` for
`arn:aws:iam::111:role/payments-svc`, expiring at instant 1005. -/
def iamStateHit : IamState :=
  { cache := fun k =>
      if k = "arn:aws:iam::111:role/payments-svc" then
        some { value := credsC, expires := 1005 }
      else none
    cacheHits := fun _ => 0
    remoteCalls := [] }

/-! ## Claims -/

/-- **C8** (confirmed).  Applying the same add event twice to the Identity
Index yields, for every IP, the same resolve result as applying it once:
`OnAdd` overwrites `rolesByIP[podIP]` with the same role, so a second
application changes nothing `Get` can observe. -/
theorem onAdd_idempotent (s : Store) (obj : EventObj) (ip : String) :
    ((s.OnAdd obj).OnAdd obj).Get ip = (s.OnAdd obj).Get ip := by
  cases obj with
  | other => rfl
  | pod p =>
    cases hann : p.annotations s.iamRoleKey with
    | none => simp [Store.OnAdd, hann]
    | some role =>
      by_cases hip : p.podIP = ""
      · simp [Store.OnAdd, hann, hip]
      · by_cases hi : ip = p.podIP <;>
          simp [Store.OnAdd, Store.Get, hann, hip, hi]

/-- **C2** counterexample.  An update event whose old and new pods share IP
`10.0.0.1` but change the role annotation from `role-one` to `role-two`
leaves the Identity Index untouched: resolving `10.0.0.1` afterwards still
returns `role-one`, not the new role — the claimed in-place replacement does
not happen. -/
theorem onUpdate_same_ip_role_change_cex :
    podOldR1.podIP = podNewR2.podIP ∧
    podOldR1.annotations "iam.amazonaws.com/role" = some "role-one" ∧
    podNewR2.annotations "iam.amazonaws.com/role" = some "role-two" ∧
    ((store0.OnAdd (.pod podOldR1)).OnUpdate (.pod podOldR1) (.pod podNewR2)).Get "10.0.0.1"
      = "role-one" := by
  refine ⟨rfl, rfl, rfl, ?_⟩
  decide

/-- **C2** (amended).  `OnUpdate` treats an IP change as delete-then-add,
but when the IP is unchanged the whole update event is ignored — even if the
role annotation changed — so resolving any IP afterwards gives the same
result as before. -/
theorem onUpdate_delete_add_or_ignore (s : Store) (oldPod newPod : Pod) :
    (oldPod.podIP ≠ newPod.podIP →
      s.OnUpdate (.pod oldPod) (.pod newPod) = (s.OnDelete (.pod oldPod)).OnAdd (.pod newPod)) ∧
    (oldPod.podIP = newPod.podIP →
      ∀ ip, (s.OnUpdate (.pod oldPod) (.pod newPod)).Get ip = s.Get ip) := by
  constructor
  · intro h
    simp [Store.OnUpdate, h]
  · intro h ip
    simp [Store.OnUpdate, h]

/-- Witness for `onUpdate_delete_add_or_ignore`: both branches at concrete
pods (distinct IPs for the first, equal IPs for the second). -/
theorem onUpdate_delete_add_or_ignore_witness :
    (store0.OnUpdate (.pod podOldR1) (.pod { podIP := "10.0.0.2", annotations := fun _ => none })
      = (store0.OnDelete (.pod podOldR1)).OnAdd
          (.pod { podIP := "10.0.0.2", annotations := fun _ => none })) ∧
    ((store0.OnUpdate (.pod podOldR1) (.pod podNewR2)).Get "10.0.0.1" = store0.Get "10.0.0.1") :=
  ⟨(onUpdate_delete_add_or_ignore store0 podOldR1
      { podIP := "10.0.0.2", annotations := fun _ => none }).1 (by decide),
   (onUpdate_delete_add_or_ignore store0 podOldR1 podNewR2).2 (by decide) "10.0.0.1"⟩

/-- **C3** counterexample.  After a newer add registers `role-two` at
`10.0.0.1`, a delayed stale delete carrying the old role `role-one` for the
same IP is *not* a no-op: `OnDelete` removes the entry regardless of the
stored role, so resolving `10.0.0.1` falls back to the default role instead
of still returning `role-two`. -/
theorem onDelete_stale_removes_newer_cex :
    ((store0.OnAdd (.pod podNewR2)).Get "10.0.0.1" = "role-two") ∧
    podOldR1.annotations "iam.amazonaws.com/role" = some "role-one" ∧
    (((store0.OnAdd (.pod podNewR2)).OnDelete (.pod podOldR1)).Get "10.0.0.1"
      = "fallback-role") := by
  refine ⟨by decide, rfl, by decide⟩

/-- **C3** (amended).  `OnDelete` for a pod with a non-empty IP removes the
Identity Index entry at that IP unconditionally — the event's role is never
compared with the current assignment — so afterwards that IP resolves to the
default role. -/
theorem onDelete_unconditional (s : Store) (pod : Pod) (h : pod.podIP ≠ "") :
    (s.OnDelete (.pod pod)).rolesByIP pod.podIP = none ∧
    (s.OnDelete (.pod pod)).Get pod.podIP = s.defaultRole := by
  simp [Store.OnDelete, Store.Get, h]

/-- Witness for `onDelete_unconditional` at a concrete store and pod. -/
theorem onDelete_unconditional_witness :
    (store0.OnDelete (.pod podOldR1)).rolesByIP "10.0.0.1" = none ∧
    (store0.OnDelete (.pod podOldR1)).Get "10.0.0.1" = "fallback-role" :=
  onDelete_unconditional store0 podOldR1 (by decide)

/-! ### Broker helper lemmas (shared across claims) -/

/-- On a live cache hit, v1 `AssumeRole` returns the cached credentials,
reports a hit, and only bumps the hit counter for that key. -/
theorem assumeRole_eq_hit (c : Client) (roleARN externalID remoteIP : String)
    (ttl : Nat) (env : Env) (st : IamState) (e : CacheEntry)
    (hlive : liveEntry st roleARN env.now = some e) :
    c.AssumeRole roleARN externalID remoteIP ttl env st =
      ({ creds := .ok e.value, hitCache := true },
       { st with cacheHits := fun k =>
          if k = roleARN then st.cacheHits k + 1 else st.cacheHits k }) := by
  simp [Client.AssumeRole, hlive]

/-- On a miss with a successful remote call, v1 `AssumeRole` issues exactly
that one call, caches the built credentials for 10 seconds, and returns
them. -/
theorem assumeRole_eq_miss_ok (c : Client) (roleARN externalID remoteIP : String)
    (ttl : Nat) (env : Env) (st : IamState) (resp : StsResp)
    (hmiss : liveEntry st roleARN env.now = none)
    (hok : env.remote (mkAssumeRoleInputV1 roleARN externalID remoteIP ttl) = .ok resp) :
    c.AssumeRole roleARN externalID remoteIP ttl env st =
      ({ creds := .ok (mkCredentials resp env.nowStr), hitCache := false },
       { cache := fun k =>
          if k = roleARN then
            some { value := mkCredentials resp env.nowStr, expires := env.now + 10 }
          else st.cache k
         cacheHits := st.cacheHits
         remoteCalls := st.remoteCalls ++ [mkAssumeRoleInputV1 roleARN externalID remoteIP ttl] }) := by
  simp [Client.AssumeRole, fetchOnce, hmiss, hok]

/-- On a miss with a failing remote call, v1 `AssumeRole` issues exactly
that one call, caches nothing, and propagates the error unchanged. -/
theorem assumeRole_eq_miss_err (c : Client) (roleARN externalID remoteIP : String)
    (ttl : Nat) (env : Env) (st : IamState) (e : String)
    (hmiss : liveEntry st roleARN env.now = none)
    (herr : env.remote (mkAssumeRoleInputV1 roleARN externalID remoteIP ttl) = .error e) :
    c.AssumeRole roleARN externalID remoteIP ttl env st =
      ({ creds := .error e, hitCache := false },
       { st with remoteCalls := st.remoteCalls ++ [mkAssumeRoleInputV1 roleARN externalID remoteIP ttl] }) := by
  simp [Client.AssumeRole, fetchOnce, hmiss, herr]

/-- **C5** (confirmed).  For every role ARN and caller IP the derived
session name is the FNV-32a digest of the caller IP (hex-rendered, never the
raw IP) concatenated with `"-"` and the last path segment of the role ARN,
truncated to at most 64 characters — in particular its length never exceeds
64. -/
theorem sessionName_hash_concat_bounded (roleARN remoteIP : String) :
    sessionName roleARN remoteIP
      = String.mk ((getHash remoteIP ++ "-" ++ afterLastSlash roleARN).data.take 64) ∧
    (sessionName roleARN remoteIP).length ≤ 64 := by
  refine ⟨rfl, ?_⟩
  show ((getHash remoteIP ++ "-" ++ afterLastSlash roleARN).data.take 64).length ≤ 64
  exact List.length_take_le _ _

/-- **C4** counterexample.  A transient throttling failure from the remote
service is *not* retried: starting from an empty cache, one `AssumeRole`
call against an environment that answers `Throttling: Rate exceeded` issues
exactly one remote call, returns that error immediately, and caches
nothing — there is no backoff wrapper around the brokering call. -/
theorem assumeRole_transient_not_retried_cex :
    ((clientC.AssumeRole "arn:aws:iam::111:role/payments-svc" "" "10.0.0.5" 900
        envThrottleC iamState0).1.creds = .error "Throttling: Rate exceeded") ∧
    ((clientC.AssumeRole "arn:aws:iam::111:role/payments-svc" "" "10.0.0.5" 900
        envThrottleC iamState0).2.remoteCalls.length = 1) ∧
    ((clientC.AssumeRole "arn:aws:iam::111:role/payments-svc" "" "10.0.0.5" 900
        envThrottleC iamState0).2.cache "arn:aws:iam::111:role/payments-svc" = none) :=
  ⟨rfl, rfl, rfl⟩

/-- **C4** (amended).  Neither `AssumeRole` variant wraps the remote
brokering call in any backoff or retry: on a cache miss the v1 variant
issues exactly one remote call and propagates any failure — transient or
permanent — immediately, caching nothing; the v2 variant always issues
exactly one remote call and propagates any failure immediately. -/
theorem assumeRole_one_remote_call_no_retry
    (c : Client) (roleARN externalID remoteIP : String) (ttl : Nat)
    (env envB : Env) (st : IamState) (e eB : String)
    (hmiss : liveEntry st roleARN env.now = none)
    (herr : env.remote (mkAssumeRoleInputV1 roleARN externalID remoteIP ttl) = .error e)
    (herrB : envB.remote (mkAssumeRoleInputV2 roleARN externalID remoteIP) = .error eB) :
    ((c.AssumeRole roleARN externalID remoteIP ttl env st).1.creds = .error e ∧
     (c.AssumeRole roleARN externalID remoteIP ttl env st).2.remoteCalls
       = st.remoteCalls ++ [mkAssumeRoleInputV1 roleARN externalID remoteIP ttl] ∧
     (c.AssumeRole roleARN externalID remoteIP ttl env st).2.cache = st.cache) ∧
    assumeRoleV2 roleARN externalID remoteIP envB
      = (.error eB, [mkAssumeRoleInputV2 roleARN externalID remoteIP]) := by
  rw [assumeRole_eq_miss_err c roleARN externalID remoteIP ttl env st e hmiss herr]
  refine ⟨⟨rfl, rfl, rfl⟩, ?_⟩
  simp [assumeRoleV2, herrB]

/-- Witness for `assumeRole_one_remote_call_no_retry` at a concrete client,
role and throttling environment. -/
theorem assumeRole_one_remote_call_no_retry_witness :
    ((clientC.AssumeRole "arn:aws:iam::111:role/payments-svc" "" "10.0.0.5" 900
        envThrottleC iamState0).1.creds = .error "Throttling: Rate exceeded" ∧
     (clientC.AssumeRole "arn:aws:iam::111:role/payments-svc" "" "10.0.0.5" 900
        envThrottleC iamState0).2.remoteCalls
       = iamState0.remoteCalls
          ++ [mkAssumeRoleInputV1 "arn:aws:iam::111:role/payments-svc" "" "10.0.0.5" 900] ∧
     (clientC.AssumeRole "arn:aws:iam::111:role/payments-svc" "" "10.0.0.5" 900
        envThrottleC iamState0).2.cache = iamState0.cache) ∧
    assumeRoleV2 "arn:aws:iam::111:role/payments-svc" "" "10.0.0.5" envThrottleC
      = (.error "Throttling: Rate exceeded",
         [mkAssumeRoleInputV2 "arn:aws:iam::111:role/payments-svc" "" "10.0.0.5"]) :=
  assumeRole_one_remote_call_no_retry clientC "arn:aws:iam::111:role/payments-svc" ""
    "10.0.0.5" 900 envThrottleC envThrottleC iamState0
    "Throttling: Rate exceeded" "Throttling: Rate exceeded" rfl rfl rfl

/-- **C6** (confirmed).  When the cache holds a live, unexpired entry for
the requested role ARN, v1 `AssumeRole` returns the cached credentials
immediately: no remote call is issued, the cache is untouched, the hit is
reported, and the cache-hit counter for that role is incremented — for any
caller IP, external ID and session TTL, since the cache is keyed by role ARN
alone. -/
theorem assumeRole_cache_hit (c : Client) (roleARN externalID remoteIP : String)
    (ttl : Nat) (env : Env) (st : IamState) (e : CacheEntry)
    (hhit : st.cache roleARN = some e) (hlive : env.now ≤ e.expires) :
    (c.AssumeRole roleARN externalID remoteIP ttl env st).1.creds = .ok e.value ∧
    (c.AssumeRole roleARN externalID remoteIP ttl env st).1.hitCache = true ∧
    (c.AssumeRole roleARN externalID remoteIP ttl env st).2.remoteCalls = st.remoteCalls ∧
    (c.AssumeRole roleARN externalID remoteIP ttl env st).2.cache = st.cache ∧
    (c.AssumeRole roleARN externalID remoteIP ttl env st).2.cacheHits roleARN
      = st.cacheHits roleARN + 1 := by
  have h : liveEntry st roleARN env.now = some e := by
    simp [liveEntry, hhit, hlive]
  rw [assumeRole_eq_hit c roleARN externalID remoteIP ttl env st e h]
  refine ⟨rfl, rfl, rfl, rfl, ?_⟩
  simp

/-- Witness for `assumeRole_cache_hit`: a state caching `credsC` for the
role, read by a caller at a *different* IP than any that populated it. -/
theorem assumeRole_cache_hit_witness :
    (clientC.AssumeRole "arn:aws:iam::111:role/payments-svc" "" "10.9.9.9" 900
        envOkC iamStateHit).1.creds = .ok credsC ∧
    (clientC.AssumeRole "arn:aws:iam::111:role/payments-svc" "" "10.9.9.9" 900
        envOkC iamStateHit).1.hitCache = true ∧
    (clientC.AssumeRole "arn:aws:iam::111:role/payments-svc" "" "10.9.9.9" 900
        envOkC iamStateHit).2.remoteCalls = iamStateHit.remoteCalls ∧
    (clientC.AssumeRole "arn:aws:iam::111:role/payments-svc" "" "10.9.9.9" 900
        envOkC iamStateHit).2.cache = iamStateHit.cache ∧
    (clientC.AssumeRole "arn:aws:iam::111:role/payments-svc" "" "10.9.9.9" 900
        envOkC iamStateHit).2.cacheHits "arn:aws:iam::111:role/payments-svc"
      = iamStateHit.cacheHits "arn:aws:iam::111:role/payments-svc" + 1 :=
  assumeRole_cache_hit clientC "arn:aws:iam::111:role/payments-svc" "" "10.9.9.9" 900
    envOkC iamStateHit { value := credsC, expires := 1005 } rfl (by decide)

/-- **C9** (confirmed).  The credential cache is package-level state shared
by every `iam.Client` in the process and keyed by role ARN alone: after any
client's successful `AssumeRole` for a role ARN, any other client's
`AssumeRole` for the same ARN while the entry is live (within the fixed
10-second TTL) returns the identical cached credentials with no further
remote call — regardless of the second client's configuration, caller IP,
external ID or session TTL. -/
theorem credentialCache_shared_across_clients
    (c1 c2 : Client) (roleARN eid1 eid2 ip1 ip2 : String) (ttl1 ttl2 : Nat)
    (env1 env2 : Env) (st : IamState) (resp : StsResp)
    (hmiss : liveEntry st roleARN env1.now = none)
    (hok : env1.remote (mkAssumeRoleInputV1 roleARN eid1 ip1 ttl1) = .ok resp)
    (hlive : env2.now ≤ env1.now + 10) :
    ((c1.AssumeRole roleARN eid1 ip1 ttl1 env1 st).1.creds
      = .ok (mkCredentials resp env1.nowStr)) ∧
    ((c2.AssumeRole roleARN eid2 ip2 ttl2 env2
        (c1.AssumeRole roleARN eid1 ip1 ttl1 env1 st).2).1.creds
      = .ok (mkCredentials resp env1.nowStr)) ∧
    ((c2.AssumeRole roleARN eid2 ip2 ttl2 env2
        (c1.AssumeRole roleARN eid1 ip1 ttl1 env1 st).2).1.hitCache = true) ∧
    ((c2.AssumeRole roleARN eid2 ip2 ttl2 env2
        (c1.AssumeRole roleARN eid1 ip1 ttl1 env1 st).2).2.remoteCalls
      = (c1.AssumeRole roleARN eid1 ip1 ttl1 env1 st).2.remoteCalls) := by
  rw [assumeRole_eq_miss_ok c1 roleARN eid1 ip1 ttl1 env1 st resp hmiss hok]
  have h2 : liveEntry
      { cache := fun k =>
          if k = roleARN then
            some { value := mkCredentials resp env1.nowStr, expires := env1.now + 10 }
          else st.cache k
        cacheHits := st.cacheHits
        remoteCalls := st.remoteCalls ++ [mkAssumeRoleInputV1 roleARN eid1 ip1 ttl1] }
      roleARN env2.now
      = some { value := mkCredentials resp env1.nowStr, expires := env1.now + 10 } := by
    simp [liveEntry, hlive]
  rw [assumeRole_eq_hit c2 roleARN eid2 ip2 ttl2 env2 _ _ h2]
  exact ⟨rfl, rfl, rfl, rfl⟩

/-- Witness for `credentialCache_shared_across_clients`: two differently
configured clients, different caller IPs and TTLs, second call 5 seconds
after the first. -/
theorem credentialCache_shared_across_clients_witness :
    ((clientC.AssumeRole "arn:aws:iam::111:role/payments-svc" "" "10.0.0.5" 900
        envOkC iamState0).1.creds = .ok (mkCredentials stsRespC envOkC.nowStr)) ∧
    ((clientD.AssumeRole "arn:aws:iam::111:role/payments-svc" "eid" "10.9.9.9" 300
        { remote := fun _ => .error "unreachable", now := 1005, nowStr := "t2" }
        (clientC.AssumeRole "arn:aws:iam::111:role/payments-svc" "" "10.0.0.5" 900
          envOkC iamState0).2).1.creds = .ok (mkCredentials stsRespC envOkC.nowStr)) ∧
    ((clientD.AssumeRole "arn:aws:iam::111:role/payments-svc" "eid" "10.9.9.9" 300
        { remote := fun _ => .error "unreachable", now := 1005, nowStr := "t2" }
        (clientC.AssumeRole "arn:aws:iam::111:role/payments-svc" "" "10.0.0.5" 900
          envOkC iamState0).2).1.hitCache = true) ∧
    ((clientD.AssumeRole "arn:aws:iam::111:role/payments-svc" "eid" "10.9.9.9" 300
        { remote := fun _ => .error "unreachable", now := 1005, nowStr := "t2" }
        (clientC.AssumeRole "arn:aws:iam::111:role/payments-svc" "" "10.0.0.5" 900
          envOkC iamState0).2).2.remoteCalls
      = (clientC.AssumeRole "arn:aws:iam::111:role/payments-svc" "" "10.0.0.5" 900
          envOkC iamState0).2.remoteCalls) :=
  credentialCache_shared_across_clients clientC clientD
    "arn:aws:iam::111:role/payments-svc" "" "eid" "10.0.0.5" "10.9.9.9" 900 300
    envOkC { remote := fun _ => .error "unreachable", now := 1005, nowStr := "t2" }
    iamState0 stsRespC rfl rfl (by decide)

/-- Helper: the broker-state component of `roleHandler`'s result is exactly
the state produced by the `AssumeRole` call on the handler's broker
arguments (both response branches keep it unchanged). -/
theorem roleHandler_snd (srv : Server) (req : Request) (env : Env) (st : IamState) :
    (srv.roleHandler req env st).2
      = (srv.iam.AssumeRole (srv.roleHandlerBrokerArgs req).roleARN
          (srv.roleHandlerBrokerArgs req).externalID
          (srv.roleHandlerBrokerArgs req).remoteIP
          (srv.roleHandlerBrokerArgs req).sessionTTLSecs env st).2 := by
  simp only [Server.roleHandler]
  cases hA : srv.iam.AssumeRole (srv.roleHandlerBrokerArgs req).roleARN
      (srv.roleHandlerBrokerArgs req).externalID
      (srv.roleHandlerBrokerArgs req).remoteIP
      (srv.roleHandlerBrokerArgs req).sessionTTLSecs env st with
  | mk res st' => cases hres : res.creds <;> simp [hres]

/-- **C1** counterexample.  With restriction enforcement on and namespace
`payments` allowing only `payments-*`, the request for role `other-role` is
unauthorized for the caller's namespace — yet `roleHandler` performs the
remote brokering call (one remote call is issued) and returns the brokered
credentials with no prior rejection: no authorization policy is evaluated
before calling the Credential Broker. -/
theorem roleHandler_brokers_unauthorized_cex :
    isAuthorized nrPayments "payments" ((reqOther.vars "role").getD "") = false ∧
    (srvC.roleHandler reqOther envOkC iamState0).2.remoteCalls.length = 1 ∧
    (srvC.roleHandler reqOther envOkC iamState0).1 = .ok credsC :=
  ⟨by decide, rfl, rfl⟩

/-- **C1** (amended).  `roleHandler` builds the full ARN for `{role}` and
calls the Credential Broker unconditionally: no namespace authorization
policy is consulted, so even a request whose role the policy denies for any
namespace reaches the remote brokering call (on a cache miss the remote call
is issued regardless). -/
theorem roleHandler_no_auth_before_broker
    (srv : Server) (req : Request) (env : Env) (st : IamState)
    (nr : NamespaceRestrictions) (ns : String)
    (hmiss : liveEntry st (srv.roleHandlerBrokerArgs req).roleARN env.now = none)
    (_hdeny : isAuthorized nr ns ((req.vars "role").getD "") = false) :
    (srv.roleHandler req env st).2.remoteCalls
      = st.remoteCalls ++ [mkAssumeRoleInputV1 (srv.roleHandlerBrokerArgs req).roleARN
          (srv.roleHandlerBrokerArgs req).externalID
          (srv.roleHandlerBrokerArgs req).remoteIP
          (srv.roleHandlerBrokerArgs req).sessionTTLSecs] := by
  rw [roleHandler_snd]
  cases h : env.remote (mkAssumeRoleInputV1 (srv.roleHandlerBrokerArgs req).roleARN
      (srv.roleHandlerBrokerArgs req).externalID
      (srv.roleHandlerBrokerArgs req).remoteIP
      (srv.roleHandlerBrokerArgs req).sessionTTLSecs) with
  | error e => rw [assumeRole_eq_miss_err srv.iam _ _ _ _ env st e hmiss h]
  | ok resp => rw [assumeRole_eq_miss_ok srv.iam _ _ _ _ env st resp hmiss h]

/-- Witness for `roleHandler_no_auth_before_broker`: the concrete
unauthorized request of the counterexample, starting from the empty broker
state. -/
theorem roleHandler_no_auth_before_broker_witness :
    (srvC.roleHandler reqOther envOkC iamState0).2.remoteCalls
      = iamState0.remoteCalls
        ++ [mkAssumeRoleInputV1 (srvC.roleHandlerBrokerArgs reqOther).roleARN
              (srvC.roleHandlerBrokerArgs reqOther).externalID
              (srvC.roleHandlerBrokerArgs reqOther).remoteIP
              (srvC.roleHandlerBrokerArgs reqOther).sessionTTLSecs] :=
  roleHandler_no_auth_before_broker srvC reqOther envOkC iamState0 nrPayments "payments"
    rfl (by decide)

/-- **C10** (confirmed).  `roleHandler` always hands the Credential Broker
the empty string as external ID, and consequently every remote call it
causes carries no `ExternalId` (the broker injects one only for a non-empty
external ID); the external-ID mapping is never consulted on this route. -/
theorem roleHandler_externalID_empty
    (srv : Server) (req : Request) (env : Env) (st : IamState) :
    (srv.roleHandlerBrokerArgs req).externalID = "" ∧
    (((srv.roleHandler req env st).2.remoteCalls.drop st.remoteCalls.length).all
        fun inp => inp.externalId.isNone) = true := by
  refine ⟨rfl, ?_⟩
  rw [roleHandler_snd]
  cases hl : liveEntry st (srv.roleHandlerBrokerArgs req).roleARN env.now with
  | some e =>
    rw [assumeRole_eq_hit srv.iam _ _ _ _ env st e hl]
    simp
  | none =>
    cases h : env.remote (mkAssumeRoleInputV1 (srv.roleHandlerBrokerArgs req).roleARN
        (srv.roleHandlerBrokerArgs req).externalID
        (srv.roleHandlerBrokerArgs req).remoteIP
        (srv.roleHandlerBrokerArgs req).sessionTTLSecs) with
    | error e =>
      rw [assumeRole_eq_miss_err srv.iam _ _ _ _ env st e hl h]
      simp [mkAssumeRoleInputV1, Server.roleHandlerBrokerArgs, List.drop_left]
    | ok resp =>
      rw [assumeRole_eq_miss_ok srv.iam _ _ _ _ env st resp hl h]
      simp [mkAssumeRoleInputV1, Server.roleHandlerBrokerArgs, List.drop_left]

/-- **C7** counterexample.  The role-credentials route is registered in
`Run` as a plain handler function (through the tracing wrapper), not through
`newAppHandler`: a panic raised there is not caught by the `appHandler`
recovery boundary and is not converted into a 500 response carrying the
fault's message. -/
theorem role_route_unwrapped_cex :
    ((registeredRoutes false).lookup "/{version}/meta-data/iam/security-credentials/{role:.*}"
      = some Registration.raw) ∧
    serveRegistration .raw (fun _ => .panics (.str "boom")) reqPlain = .error (.str "boom") ∧
    serveRegistration .raw (fun _ => .panics (.str "boom")) reqPlain
      ≠ .ok { status := 500, body := "boom" } := by
  refine ⟨by decide, rfl, by simp [serveRegistration, serveRaw]⟩

/-- **C7** (amended).  Every route registered through `newAppHandler`
(security-credentials listing, healthz, debug store, reverse proxy) runs
inside `appHandler.ServeHTTP`'s recovery boundary: a panic during its
handling is caught and converted into a 500 response whose body is the
fault's message.  The role-credentials route and the pprof routes are
registered without this boundary, so the conversion does not apply to them. -/
theorem appHandler_panic_to_500
    (debug : Bool) (pat name : String) (h : Request → HandlerOutcome)
    (req : Request) (v : PanicValue)
    (_hreg : (pat, Registration.app name) ∈ registeredRoutes debug)
    (hpanic : h req = .panics v) :
    serveRegistration (.app name) h req
      = .ok { status := 500, body := recoverMessage v } := by
  simp [serveRegistration, serveWrapped, hpanic]

/-- Witness for `appHandler_panic_to_500`: the `/healthz` registration with
a handler that panics with the string `"boom"`. -/
theorem appHandler_panic_to_500_witness :
    serveRegistration (.app "healthHandler") (fun _ => .panics (.str "boom")) reqPlain
      = .ok { status := 500, body := "boom" } :=
  appHandler_panic_to_500 false "/healthz" "healthHandler"
    (fun _ => .panics (.str "boom")) reqPlain (.str "boom") (by decide) rfl

end Kube2iam
